import Mathlib

/-!
Shallow embedding of the admission-and-release engine of the `queue`
repository (FastAPI + SQLAlchemy). The store is modelled as in-memory
lists of rows; UUIDs are modelled as `Nat` identifiers; timestamps as
`Nat`; freshly generated UUID tokens appear as explicit parameters.
`ORDER BY created_at` is modelled as a stable sort of the table rows by
`created_at` (ties keep the table's row order, since the SQL query has
no secondary sort key). HTTP failures are `Except Nat` carrying the
status code.
-/

namespace QueueApp

/-- Mirrors `QueueUserStatus` in `app/models/queue_user.py`. -/
inductive QueueUserStatus where
  | waiting
  | ready
  | expired
  | rejected
deriving DecidableEq, Repr

/-- Mirrors `QueueUser` in `app/models/queue_user.py` together with the
columns inherited from `Base` (`created_at`, `is_deleted`; `is_active`
is never consulted for queue users). -/
structure QueueUser where
  id : Nat
  queue_id : Nat
  visitor_id : String
  status : QueueUserStatus
  token : String
  redirect_url : Option String
  wait_time : Option Nat
  expires_at : Nat
  created_at : Nat
  is_deleted : Bool
deriving DecidableEq, Repr

/-- Mirrors `Queue` in `app/models/queue.py` plus the `Base` columns. -/
structure Queue where
  id : Nat
  application_id : Nat
  name : String
  max_users_per_minute : Nat
  priority : Nat
  is_active : Bool
  is_deleted : Bool
deriving DecidableEq, Repr

/-- Mirrors `Application` in `app/models/application.py` plus the `Base`
columns. -/
structure Application where
  id : Nat
  name : String
  domain : String
  callback_url : String
  api_key : String
  is_active : Bool
  is_deleted : Bool
deriving DecidableEq, Repr

/-- Mirrors `Log` in `app/models/log.py` (the delivery-attempt record). -/
structure Log where
  event_type : String
  message : String
  details : String
  application_id : Option Nat
  queue_id : Option Nat
  queue_user_id : Option Nat
deriving DecidableEq, Repr

/-- The persistent store: one list of rows per table. -/
structure DB where
  applications : List Application
  queues : List Queue
  queue_users : List QueueUser
  logs : List Log
deriving DecidableEq, Repr

/-- Mirrors `QueueUserResponse` in `app/schemas/queue_user.py`. -/
structure QueueUserResponse where
  id : Nat
  queue_id : Nat
  visitor_id : String
  status : QueueUserStatus
  token : String
  redirect_url : Option String
  wait_time : Option Nat
  expires_at : Nat
  created_at : Nat
deriving DecidableEq, Repr

/-- Models `db.query(Application).filter_by(api_key=..., is_deleted=False).first()`
from `join_queue` in `app/api/queue_users.py`. -/
def findApp (db : DB) (key : String) : Option Application :=
  db.applications.find? (fun a => a.api_key == key && !a.is_deleted)

/-- Models `db.query(Queue).filter_by(id=..., application_id=app.id, is_deleted=False).first()`
from `join_queue` in `app/api/queue_users.py`. -/
def findQueue (db : DB) (qid appId : Nat) : Option Queue :=
  db.queues.find? (fun q => q.id == qid && q.application_id == appId && !q.is_deleted)

/-- Builds the `QueueUserResponse` from a stored row. -/
def responseOf (u : QueueUser) : QueueUserResponse :=
  { id := u.id, queue_id := u.queue_id, visitor_id := u.visitor_id,
    status := u.status, token := u.token, redirect_url := u.redirect_url,
    wait_time := u.wait_time, expires_at := u.expires_at, created_at := u.created_at }

/-- Mirrors `join_queue` in `app/api/queue_users.py`. `apiKey` is the
`app_api_key` request header (absent = `none`); `freshId` and `tok` stand
for the `uuid.uuid4()` values generated in the handler; `now` is
`datetime.utcnow()` in minutes. Returns the HTTP status code on failure,
and the response together with the updated store on success. -/
def join_queue (apiKey : Option String) (queueId : Nat) (visitorId : String)
    (mode : String) (freshId : Nat) (tok : String) (now : Nat) (db : DB) :
    Except Nat (QueueUserResponse × DB) :=
  match apiKey with
  | none => .error 401
  | some key =>
    match findApp db key with
    | none => .error 401
    | some app =>
      match findQueue db queueId app.id with
      | none => .error 404
      | some queue =>
        if mode == "simulation" then
          .ok ({ id := freshId, queue_id := queue.id, visitor_id := visitorId,
                 status := .ready, token := tok, redirect_url := none,
                 wait_time := some 0, expires_at := now + 5, created_at := now }, db)
        else
          let queue_user : QueueUser :=
            { id := freshId, queue_id := queue.id, visitor_id := visitorId,
              status := .waiting, token := tok, redirect_url := none,
              wait_time := none, expires_at := now + 10, created_at := now,
              is_deleted := false }
          .ok (responseOf queue_user,
               { db with queue_users := db.queue_users ++ [queue_user] })

/-- Models `db.query(QueueUser).filter_by(token=..., is_deleted=False).first()`
used by `queue_status` and `cancel_queue`. -/
def findUser (db : DB) (tok : String) : Option QueueUser :=
  db.queue_users.find? (fun u => u.token == tok && !u.is_deleted)

/-- Mirrors `queue_status` in `app/api/queue_users.py`. -/
def queue_status (tok : String) (db : DB) : Except Nat QueueUserResponse :=
  match findUser db tok with
  | none => .error 404
  | some u => .ok (responseOf u)

/-- Applies `f` to the first element satisfying `p`, leaving the rest of
the list unchanged (the ORM mutates the single object `first()` returned). -/
def updateFirst (p : α → Bool) (f : α → α) : List α → List α
  | [] => []
  | x :: xs => if p x then f x :: xs else x :: updateFirst p f xs

/-- Mirrors `cancel_queue` in `app/api/queue_users.py`: 404 when no non-deleted
row carries the token, otherwise sets `status = rejected` and
`is_deleted = True` on that row, whatever its current state. -/
def cancel_queue (tok : String) (db : DB) : Except Nat DB :=
  match findUser db tok with
  | none => .error 404
  | some _ =>
    .ok { db with
          queue_users :=
            updateFirst (fun u => u.token == tok && !u.is_deleted)
              (fun u => { u with status := .rejected, is_deleted := true })
              db.queue_users }

theorem findUser_mem {db : DB} {tok : String} {u : QueueUser}
    (h : findUser db tok = some u) : u ∈ db.queue_users :=
  List.mem_of_find?_eq_some h

theorem updateFirst_mem {p : α → Bool} {f : α → α} {l : List α} {u : α}
    (h : l.find? p = some u) : f u ∈ updateFirst p f l := by
  induction l with
  | nil => simp [List.find?] at h
  | cons x xs ih =>
    by_cases hx : p x
    · rw [List.find?_cons_of_pos _ hx] at h
      simp only [updateFirst, hx, if_true]
      exact (Option.some_inj.mp h) ▸ List.mem_cons_self _ _
    · rw [List.find?_cons_of_neg _ hx] at h
      simp only [updateFirst, hx, if_false]
      exact List.mem_cons_of_mem _ (ih h)

/-- The filter of the `waiting_users` / `total_waiting` queries in
`QueueWorker.process_queue` (`app/workers/queue_worker.py`):
`queue_id=queue.id, status=waiting, is_deleted=False`. -/
def waitingFilter (qid : Nat) (u : QueueUser) : Bool :=
  u.queue_id == qid && u.status == QueueUserStatus.waiting && !u.is_deleted

/-- The `waiting_users` query of `QueueWorker.process_queue`:
filter to waiting users of the queue, `ORDER BY created_at` (stable with
respect to table row order; the query has no secondary sort key), then
`LIMIT queue.max_users_per_minute`. These are exactly the rows the cycle
transitions to `ready`. -/
def releasedUsers (queue : Queue) (db : DB) : List QueueUser :=
  (((db.queue_users.filter (waitingFilter queue.id)).insertionSort
      (fun a b => a.created_at ≤ b.created_at)).take queue.max_users_per_minute)

/-- The `total_waiting` count query of `QueueWorker.process_queue`,
evaluated on the store as it is at that point (before any release of the
cycle is committed). -/
def countWaiting (queue : Queue) (db : DB) : Nat :=
  (db.queue_users.filter (waitingFilter queue.id)).length

/-- Mirrors `QueueWorker.release_user`: sets `status = ready` and
`wait_time = now - created_at` on the row whose id matches the object
read earlier, and commits. The write is keyed on the id alone — it is
not conditioned on the row still being `waiting` at commit time. -/
def release_user (now : Nat) (db : DB) (user : QueueUser) : DB :=
  { db with
    queue_users := db.queue_users.map (fun x =>
      if x.id == user.id then
        { x with status := .ready, wait_time := some (now - user.created_at) }
      else x) }

/-- Result of one `QueueWorker.process_queue` call: the updated store,
the number of `USERS_RELEASED` increments, and the value written to the
`QUEUE_SIZE` gauge (`none` when the gauge was not touched). -/
structure CycleResult where
  db : DB
  users_released : Nat
  gauge : Option Nat
deriving DecidableEq, Repr

/-- Mirrors `QueueWorker.process_queue`: select the bounded waiting list; if it
is empty return at once (gauge untouched); otherwise set the gauge to
the current total waiting count and then release each selected user.
Callback dispatch is modelled separately by `send_callback`. -/
def process_queue (now : Nat) (queue : Queue) (db : DB) : CycleResult :=
  let waiting_users := releasedUsers queue db
  if waiting_users.isEmpty then
    { db := db, users_released := 0, gauge := none }
  else
    let total_waiting := countWaiting queue db
    { db := waiting_users.foldl (release_user now) db,
      users_released := waiting_users.length,
      gauge := some total_waiting }

/-- Outcome of the bounded retry loop inside `QueueWorker.send_callback`:
how many HTTP posts were made, the `asyncio.sleep` backoff delays between
them, in order, and whether some attempt succeeded. -/
structure AttemptResult where
  attempts : Nat
  sleeps : List Nat
  success : Bool
deriving DecidableEq, Repr

/-- The `for attempt in range(retries)` loop of `QueueWorker.send_callback`:
`ok i` tells whether the i-th HTTP post succeeds (2xx). On failure it
sleeps `2 ^ attempt` unless this was the last attempt; on success it
breaks. `fuel` is the number of attempts still available. -/
def attemptLoop (ok : Nat → Bool) : Nat → Nat → AttemptResult
  | _, 0 => { attempts := 0, sleeps := [], success := false }
  | attempt, fuel + 1 =>
    if ok attempt then
      { attempts := 1, sleeps := [], success := true }
    else if fuel == 0 then
      { attempts := 1, sleeps := [], success := false }
    else
      let r := attemptLoop ok (attempt + 1) fuel
      { attempts := r.attempts + 1, sleeps := 2 ^ attempt :: r.sleeps,
        success := r.success }

/-- Result of one `QueueWorker.send_callback` call: the store (logs may
be appended; queue_users is never written), attempt count, backoff
delays, and the `CALLBACK_SUCCESS` / `CALLBACK_FAILURE` increments. -/
structure CallbackResult where
  db : DB
  attempts : Nat
  sleeps : List Nat
  success_inc : Nat
  failure_inc : Nat
deriving DecidableEq, Repr

/-- Mirrors `QueueWorker.send_callback`: look up the owning application; return
at once if absent; otherwise run up to 3 posts with exponential backoff.
On success increment `CALLBACK_SUCCESS` and stop; after 3 failures
increment `CALLBACK_FAILURE` once and append one `Log` row referencing
the application, queue and user. The participant row is never written. -/
def send_callback (ok : Nat → Bool) (user : QueueUser) (queue : Queue) (db : DB) :
    CallbackResult :=
  match db.applications.find? (fun a => a.id == queue.application_id) with
  | none => { db := db, attempts := 0, sleeps := [], success_inc := 0, failure_inc := 0 }
  | some app =>
    let r := attemptLoop ok 0 3
    if r.success then
      { db := db, attempts := r.attempts, sleeps := r.sleeps,
        success_inc := 1, failure_inc := 0 }
    else
      { db := { db with
                logs := db.logs ++
                  [{ event_type := "callback_failure",
                     message := "Callback failed after 3 attempts",
                     details := "User: " ++ toString user.id ++
                       ", Queue: " ++ toString queue.id ++
                       ", App: " ++ toString app.id,
                     application_id := some app.id,
                     queue_id := some queue.id,
                     queue_user_id := some user.id }] },
        attempts := r.attempts, sleeps := r.sleeps,
        success_inc := 0, failure_inc := 1 }

/-- The selection query of `QueueWorker.cleanup_expired_tokens`:
`status == waiting AND expires_at < now AND is_deleted == False`. -/
def expiredSelect (now : Nat) (db : DB) : List QueueUser :=
  db.queue_users.filter (fun u =>
    u.status == QueueUserStatus.waiting && decide (u.expires_at < now) && !u.is_deleted)

/-- The write phase of `QueueWorker.cleanup_expired_tokens` for one user
object read earlier: sets `status = expired` on the row with that id,
keyed on the id alone, not conditioned on the row still being `waiting`
at commit time. -/
def markExpired (db : DB) (user : QueueUser) : DB :=
  { db with
    queue_users := db.queue_users.map (fun x =>
      if x.id == user.id then { x with status := .expired } else x) }

/-- Mirrors `QueueWorker.cleanup_expired_tokens` as one sweep: select the expired
waiting users, mark each `expired`, and count the `USERS_EXPIRED`
increments. -/
def cleanup_expired_tokens (now : Nat) (db : DB) : DB × Nat :=
  let es := expiredSelect now db
  (es.foldl markExpired db, es.length)

/-- Control flow of `QueueWorker.process_queues`: iterate over the active
queues in order; `step` is the body `process_queue(queue, db)`, which may
raise. There is no per-queue exception handler, so the first error
propagates out of the loop. Returns the ids of the queues whose
processing was attempted and the propagated error, if any. -/
def process_queues_run (step : Queue → Except String Unit) :
    List Queue → List Nat × Option String
  | [] => ([], none)
  | q :: rest =>
    match step q with
    | .error e => ([q.id], some e)
    | .ok _ =>
      let r := process_queues_run step rest
      (q.id :: r.1, r.2)

/-- One iteration of the `while self.running` loop in `QueueWorker.start`:
the body runs `process_queues` then `cleanup_expired_tokens` inside a
`try`; on an exception it logs and sleeps. Returns whether the cleanup
phase ran this iteration and whether the loop continues (it always does:
no exception clears `self.running`). -/
def start_iteration (processOutcome : Option String) : Bool × Bool :=
  (processOutcome.isNone, true)

/-- Models the `RateLimiter` sliding-window pruning in `app/middleware/rate_limit.py`:
keep the request timestamps with `now - t < window_size`. -/
def pruneWindow (window now : Nat) (reqs : List Nat) : List Nat :=
  reqs.filter (fun t => now - t < window)

/-- Mirrors `RateLimiter.is_allowed`: prune the client's window, then append `now`
and allow when the pruned window is below `max_requests`, else deny
without recording anything. Returns the decision and the client's stored
window after the call. -/
def is_allowed (maxRequests window now : Nat) (reqs : List Nat) : Bool × List Nat :=
  let client_requests := pruneWindow window now reqs
  if client_requests.length < maxRequests then (true, client_requests ++ [now])
  else (false, client_requests)

/-- Mirrors `RateLimiter.get_remaining_requests`: prune the window and return
`max(0, max_requests - len)` together with the stored window after the
call. -/
def get_remaining_requests (maxRequests window now : Nat) (reqs : List Nat) :
    Nat × List Nat :=
  let client_requests := pruneWindow window now reqs
  (maxRequests - client_requests.length, client_requests)

/- ### Sample rows used by counterexamples and witnesses -/

/-- A sample application (active, not deleted, api key "k"). -/
def appK : Application :=
  { id := 10, name := "Test App", domain := "test.com",
    callback_url := "https://test.com/callback", api_key := "k",
    is_active := true, is_deleted := false }

/-- A sample application that is INACTIVE but not deleted. -/
def appInactive : Application :=
  { appK with is_active := false }

/-- A sample queue owned by application 10, quota 2. -/
def queueQ : Queue :=
  { id := 1, application_id := 10, name := "Test Queue",
    max_users_per_minute := 2, priority := 1,
    is_active := true, is_deleted := false }

/-- A sample queue that is INACTIVE but not deleted. -/
def queueInactive : Queue :=
  { queueQ with is_active := false }

/-- A participant already released: state `ready`, not deleted. -/
def readyUser : QueueUser :=
  { id := 1, queue_id := 1, visitor_id := "visitor123", status := .ready,
    token := "t", redirect_url := none, wait_time := some 3,
    expires_at := 100, created_at := 0, is_deleted := false }

/-- A waiting participant of queue 1 (used by witnesses). -/
def waitingUser : QueueUser :=
  { id := 3, queue_id := 1, visitor_id := "w", status := .waiting,
    token := "tw", redirect_url := none, wait_time := none,
    expires_at := 100, created_at := 2, is_deleted := false }

/-- Two waiting participants of queue 1 sharing one creation timestamp. -/
def tieA : QueueUser :=
  { id := 1, queue_id := 1, visitor_id := "a", status := .waiting,
    token := "ta", redirect_url := none, wait_time := none,
    expires_at := 100, created_at := 7, is_deleted := false }

/-- The second of the two tied participants. -/
def tieB : QueueUser :=
  { tieA with id := 2, visitor_id := "b", token := "tb" }

/-- A store holding one already-released (`ready`) participant. -/
def dbReady : DB :=
  { applications := [appK], queues := [queueQ], queue_users := [readyUser], logs := [] }

/-- A store holding one waiting participant. -/
def dbOneWaiting : DB :=
  { applications := [appK], queues := [queueQ], queue_users := [waitingUser], logs := [] }

/-- A store holding no participants. -/
def dbNoWaiting : DB :=
  { applications := [appK], queues := [queueQ], queue_users := [], logs := [] }

/-- A store whose application and queue are inactive but not deleted. -/
def dbInactive : DB :=
  { applications := [appInactive], queues := [queueInactive], queue_users := [], logs := [] }

/-- A store holding the two tied participants in row order B, A. -/
def dbTieBA : DB :=
  { applications := [appK], queues := [queueQ], queue_users := [tieB, tieA], logs := [] }

/-- The same participants in row order A, B. -/
def dbTieAB : DB :=
  { applications := [appK], queues := [queueQ], queue_users := [tieA, tieB], logs := [] }

instance : IsTotal QueueUser (fun a b => a.created_at ≤ b.created_at) :=
  ⟨fun a b => Nat.le_total a.created_at b.created_at⟩

instance : IsTrans QueueUser (fun a b => a.created_at ≤ b.created_at) :=
  ⟨fun _ _ _ => Nat.le_trans⟩

theorem releasedUsers_status (queue : Queue) (db : DB) :
    ∀ u ∈ releasedUsers queue db, u.status = QueueUserStatus.waiting := by
  intro u hu
  have hmem := List.mem_of_mem_take hu
  have hf : u ∈ db.queue_users.filter (waitingFilter queue.id) :=
    (List.perm_insertionSort
      (fun a b : QueueUser => a.created_at ≤ b.created_at)
      (db.queue_users.filter (waitingFilter queue.id))).mem_iff.mp hmem
  have hp := (List.mem_filter.mp hf).2
  simp only [waitingFilter, Bool.and_eq_true, beq_iff_eq, Bool.not_eq_true'] at hp
  exact hp.1.2

theorem expiredSelect_status (now : Nat) (db : DB) :
    ∀ u ∈ expiredSelect now db, u.status = QueueUserStatus.waiting := by
  intro u hu
  have hp := (List.mem_filter.mp hu).2
  simp only [Bool.and_eq_true, beq_iff_eq, Bool.not_eq_true', decide_eq_true_eq] at hp
  exact hp.1.1

/- ### C1 -/

/-- C1 counterexample: cancelling the token of a participant already in
the terminal state `ready` does not fail with 404 — it succeeds and
mutates the participant to `rejected` with `is_deleted = true`. -/
theorem cancel_ready_mutates_counterexample :
    cancel_queue "t" dbReady =
      .ok { applications := [appK], queues := [queueQ],
            queue_users := [{ readyUser with status := .rejected, is_deleted := true }],
            logs := [] } := by
  rfl

/-- C1 amended: the Release Scheduler and the Expiration Sweeper select
only `waiting` participants, and a cancellation for a token with no
non-deleted row fails 404 without touching the store; but a cancellation
whose token matches any non-deleted participant — terminal states
included — succeeds and rewrites that participant to `rejected`,
`is_deleted = true`. -/
theorem cancel_terminal_amended (db : DB) (tok : String) (q : Queue) (now : Nat) :
    (findUser db tok = none → cancel_queue tok db = .error 404) ∧
    (∀ u, findUser db tok = some u →
      ∃ db', cancel_queue tok db = .ok db' ∧
        { u with status := .rejected, is_deleted := true } ∈ db'.queue_users) ∧
    (∀ u ∈ releasedUsers q db, u.status = .waiting) ∧
    (∀ u ∈ expiredSelect now db, u.status = .waiting) := by
  refine ⟨fun h => by simp [cancel_queue, h], fun u hu => ?_, fun u hu => ?_, fun u hu => ?_⟩
  · have hc : cancel_queue tok db =
        .ok { db with
              queue_users :=
                updateFirst (fun v => v.token == tok && !v.is_deleted)
                  (fun v => { v with status := .rejected, is_deleted := true })
                  db.queue_users } := by
      simp [cancel_queue, hu]
    exact ⟨_, hc, updateFirst_mem hu⟩
  · exact releasedUsers_status q db u hu
  · exact expiredSelect_status now db u hu

/-- C1 witness: the amended statement evaluated on a concrete store with
one ready participant carrying token "t". -/
theorem cancel_terminal_amended_witness :
    ∃ db', cancel_queue "t" dbReady = .ok db' ∧
      { readyUser with status := QueueUserStatus.rejected, is_deleted := true } ∈
        db'.queue_users :=
  (cancel_terminal_amended dbReady "t" queueQ 0).2.1 readyUser (by decide)

/- ### C2 -/

/-- C2 counterexample: a credential resolving to an application with
`is_active = false` (and a queue with `is_active = false`) is admitted:
`join_queue` returns success, not a 401/404 outcome, because the handler
filters only on `is_deleted`. -/
theorem join_inactive_counterexample :
    join_queue (some "k") 1 "v" "real" 7 "tok" 0 dbInactive =
      .ok ({ id := 7, queue_id := 1, visitor_id := "v", status := .waiting,
             token := "tok", redirect_url := none, wait_time := none,
             expires_at := 10, created_at := 0 },
           { applications := [appInactive], queues := [queueInactive],
             queue_users := [{ id := 7, queue_id := 1, visitor_id := "v",
                               status := .waiting, token := "tok",
                               redirect_url := none, wait_time := none,
                               expires_at := 10, created_at := 0,
                               is_deleted := false }], logs := [] }) := by
  rfl

/-- C2 amended: admission fails 401 unless the credential resolves to a
NON-DELETED application (the `is_active` flag is not consulted), fails
404 unless the queue id resolves, scoped to that application, to a
NON-DELETED queue (again `is_active` is not consulted), and every
successful admission goes to a queue owned by the resolved application
(cross-tenant queues are never admitted to). -/
theorem join_validation_amended (key : String) (qid freshId : Nat)
    (vid mode tok : String) (now : Nat) (db : DB) :
    (join_queue none qid vid mode freshId tok now db = .error 401) ∧
    (findApp db key = none →
      join_queue (some key) qid vid mode freshId tok now db = .error 401) ∧
    (∀ app, findApp db key = some app → findQueue db qid app.id = none →
      join_queue (some key) qid vid mode freshId tok now db = .error 404) ∧
    (∀ r, join_queue (some key) qid vid mode freshId tok now db = .ok r →
      ∃ app queue, findApp db key = some app ∧
        findQueue db qid app.id = some queue ∧
        queue.id = qid ∧ queue.application_id = app.id ∧
        queue.is_deleted = false ∧ app.is_deleted = false) := by
  refine ⟨rfl, fun h => by simp [join_queue, h],
          fun app ha hq => by simp [join_queue, ha, hq], fun r hr => ?_⟩
  cases happ : findApp db key with
  | none => simp [join_queue, happ] at hr
  | some app =>
    cases hq : findQueue db qid app.id with
    | none => simp [join_queue, happ, hq] at hr
    | some queue =>
      have hip := List.find?_some hq
      simp only [Bool.and_eq_true, beq_iff_eq, Bool.not_eq_true'] at hip
      have hap := List.find?_some happ
      simp only [Bool.and_eq_true, beq_iff_eq, Bool.not_eq_true'] at hap
      exact ⟨app, queue, rfl, hq, hip.1.1, hip.1.2, hip.2, hap.2⟩

/-- C2 witness: the amended statement evaluated on a concrete store: an
unknown credential is refused 401, a foreign queue id is refused 404, and
the successful admission above resolves to the owning application. -/
theorem join_validation_amended_witness :
    (join_queue none 1 "v" "real" 7 "tok" 0 dbNoWaiting = .error 401) ∧
    (join_queue (some "wrong") 1 "v" "real" 7 "tok" 0 dbNoWaiting = .error 401) ∧
    (join_queue (some "k") 99 "v" "real" 7 "tok" 0 dbNoWaiting = .error 404) := by
  refine ⟨(join_validation_amended "wrong" 1 7 "v" "real" "tok" 0 dbNoWaiting).1,
    (join_validation_amended "wrong" 1 7 "v" "real" "tok" 0 dbNoWaiting).2.1 (by decide),
    (join_validation_amended "k" 99 7 "v" "real" "tok" 0 dbNoWaiting).2.2.1
      appK (by decide) (by decide)⟩

/- ### C3 -/

/-- C3: the per-queue loop of `process_queues` has no exception handler,
so when processing queue 1 raises, queue 2 of the same cycle is never
attempted (the claim requires it still to run); the `start` loop catches
the error, skips that iteration's expiration cleanup, and keeps running.
When no queue raises, both queues are processed. -/
theorem queue_failure_aborts_cycle :
    process_queues_run (fun q => if q.id == 1 then .error "db error" else .ok ())
        [{ queueQ with id := 1 }, { queueQ with id := 2 }] =
      ([1], some "db error") ∧
    start_iteration (some "db error") = (false, true) ∧
    process_queues_run (fun _ => .ok ())
        [{ queueQ with id := 1 }, { queueQ with id := 2 }] = ([1, 2], none) := by
  exact ⟨rfl, rfl, rfl⟩

/- ### C4 -/

/-- C4: both terminal transitions are plain writes keyed on the row id,
not conditional updates. A stale `waiting` handle of participant 1 is
committed by `release_user` over a row that has meanwhile become
`expired`, leaving it `ready`; symmetrically, `cleanup_expired_tokens`'s
write phase commits `expired` over a row that has meanwhile become
`ready`. The loser of the race overwrites the winner instead of being
discarded. -/
theorem unconditional_transition_write :
    (release_user 5
        { applications := [], queues := [],
          queue_users := [{ readyUser with status := .expired, wait_time := none }],
          logs := [] }
        { readyUser with status := .waiting, wait_time := none }).queue_users =
      [{ readyUser with status := .ready, wait_time := some 5 }] ∧
    (markExpired
        { applications := [], queues := [], queue_users := [readyUser], logs := [] }
        { readyUser with status := .waiting, wait_time := none }).queue_users =
      [{ readyUser with status := .expired }] := by
  exact ⟨rfl, rfl⟩

/- ### C5 -/

/-- C5: with the owning application resolved, a callback whose every
attempt fails makes exactly 3 attempts with backoff delays 1 then 2
(strictly increasing, doubling from base 1), appends exactly one log
record referencing application, queue and participant, increments the
failure counter exactly once and the success counter not at all, and
never writes the participant table (a `ready` participant stays
`ready`); a callback whose first attempt succeeds makes exactly one
attempt, increments the success counter once, and changes nothing. -/
theorem callback_retry (ok : Nat → Bool) (user : QueueUser) (queue : Queue)
    (db : DB) (app : Application)
    (happ : db.applications.find? (fun a => a.id == queue.application_id) = some app) :
    ((∀ i, ok i = false) →
      send_callback ok user queue db =
        { db := { db with
                  logs := db.logs ++
                    [{ event_type := "callback_failure",
                       message := "Callback failed after 3 attempts",
                       details := "User: " ++ toString user.id ++
                         ", Queue: " ++ toString queue.id ++
                         ", App: " ++ toString app.id,
                       application_id := some app.id,
                       queue_id := some queue.id,
                       queue_user_id := some user.id }] },
          attempts := 3, sleeps := [1, 2], success_inc := 0, failure_inc := 1 }) ∧
    ((∀ i, ok i = false) →
      List.Pairwise (fun a b => a < b) (send_callback ok user queue db).sleeps) ∧
    (ok 0 = true →
      send_callback ok user queue db =
        { db := db, attempts := 1, sleeps := [], success_inc := 1, failure_inc := 0 }) := by
  refine ⟨fun hfail => ?_, fun hfail => ?_, fun h0 => ?_⟩
  · simp [send_callback, happ, attemptLoop, hfail]
  · simp [send_callback, happ, attemptLoop, hfail]
  · simp [send_callback, happ, attemptLoop, h0]

/-- C5 witness: the retry behaviour evaluated with an always-failing
endpoint and with an immediately-successful endpoint, on a concrete
store holding the owning application. -/
theorem callback_retry_witness :
    send_callback (fun _ => false) readyUser queueQ dbReady =
      { db := { applications := [appK], queues := [queueQ],
                queue_users := [readyUser],
                logs := [{ event_type := "callback_failure",
                           message := "Callback failed after 3 attempts",
                           details := "User: " ++ toString readyUser.id ++
                             ", Queue: " ++ toString queueQ.id ++
                             ", App: " ++ toString appK.id,
                           application_id := some appK.id,
                           queue_id := some queueQ.id,
                           queue_user_id := some readyUser.id }] },
        attempts := 3, sleeps := [1, 2], success_inc := 0, failure_inc := 1 } ∧
    send_callback (fun _ => true) readyUser queueQ dbReady =
      { db := dbReady,
        attempts := 1, sleeps := [], success_inc := 1, failure_inc := 0 } := by
  have hfailCase :=
    (callback_retry (fun _ => false) readyUser queueQ dbReady appK (by rfl)).1
      (fun _ => rfl)
  have hsuccCase :=
    (callback_retry (fun _ => true) readyUser queueQ dbReady appK (by rfl)).2.2 rfl
  exact ⟨hfailCase.trans (by rfl), hsuccCase.trans (by rfl)⟩

/- ### C6 -/

/-- C6: in one Release Scheduler cycle, the list of participants the
cycle transitions to `ready` is drawn from the `waiting` participants of
the queue only, and its length — the number of `USERS_RELEASED`
increments of `process_queue` — never exceeds the queue's
`max_users_per_minute` quota. -/
theorem release_quota_bound (now : Nat) (queue : Queue) (db : DB) :
    (releasedUsers queue db).length ≤ queue.max_users_per_minute ∧
    (process_queue now queue db).users_released ≤ queue.max_users_per_minute ∧
    (∀ u ∈ releasedUsers queue db, u.status = QueueUserStatus.waiting) := by
  have hlen : (releasedUsers queue db).length ≤ queue.max_users_per_minute :=
    List.length_take_le _ _
  refine ⟨hlen, ?_, releasedUsers_status queue db⟩
  by_cases h : (releasedUsers queue db).isEmpty
  · simp [process_queue, h]
  · simpa [process_queue, h] using hlen

/-- C6 witness: the quota bound evaluated on a concrete store with one
waiting participant and quota 2; the single released participant was
waiting. -/
theorem release_quota_bound_witness :
    (releasedUsers queueQ dbOneWaiting).length ≤ queueQ.max_users_per_minute ∧
    waitingUser.status = QueueUserStatus.waiting := by
  refine ⟨(release_quota_bound 5 queueQ dbOneWaiting).1, ?_⟩
  exact (release_quota_bound 5 queueQ dbOneWaiting).2.2 waitingUser (by decide)

/- ### C7 -/

/-- C7 counterexample: the selection query orders by `created_at` with no
secondary sort key, so the order of two participants sharing a creation
timestamp is whatever the table row order happens to be: two stores
holding exactly the same participants (a permutation) release them in
different orders, hence no stable per-participant key (id or insertion
sequence) determines the tie order. -/
theorem tie_order_counterexample :
    dbTieBA.queue_users.Perm dbTieAB.queue_users ∧
    releasedUsers queueQ dbTieBA ≠ releasedUsers queueQ dbTieAB := by
  constructor
  · exact List.Perm.swap tieA tieB []
  · decide

/-- C7 amended: within one queue and one cycle, participants are
selected and released in ascending creation-timestamp order; no
secondary sort key is applied, so participants sharing a creation
timestamp come in the store's row order, which is not determined by a
stable per-participant key. -/
theorem fifo_order_amended (queue : Queue) (db : DB) :
    List.Pairwise (fun a b : QueueUser => a.created_at ≤ b.created_at)
      (releasedUsers queue db) := by
  exact List.Pairwise.sublist (List.take_sublist _ _)
    (List.sorted_insertionSort (fun a b : QueueUser => a.created_at ≤ b.created_at)
      (db.queue_users.filter (waitingFilter queue.id)))

/- ### C8 -/

/-- C8 counterexample: with one waiting participant and quota 2, the
cycle sets the gauge to 1 — the waiting count BEFORE the release — while
0 participants remain waiting after the cycle; and a cycle that finds no
waiting participants does not update the gauge at all. -/
theorem gauge_counterexample :
    (process_queue 5 queueQ dbOneWaiting).gauge = some 1 ∧
    countWaiting queueQ (process_queue 5 queueQ dbOneWaiting).db = 0 ∧
    (process_queue 5 queueQ dbNoWaiting).gauge = none := by
  exact ⟨rfl, rfl, rfl⟩

/-- C8 amended: when the cycle selects no waiting participant it returns
at once, leaving the store and the gauge untouched; otherwise it updates
the gauge to the queue's waiting count taken BEFORE the releases of the
cycle are applied (so the gauge includes the participants this cycle
releases). -/
theorem gauge_amended (now : Nat) (queue : Queue) (db : DB) :
    (releasedUsers queue db = [] →
      process_queue now queue db = { db := db, users_released := 0, gauge := none }) ∧
    (releasedUsers queue db ≠ [] →
      (process_queue now queue db).gauge = some (countWaiting queue db)) := by
  constructor
  · intro h
    simp [process_queue, h]
  · intro h
    have hne : (releasedUsers queue db).isEmpty = false := by
      simpa [List.isEmpty_iff] using h
    simp [process_queue, hne]

/-- C8 witness: the amended gauge behaviour evaluated on a concrete
store with one waiting participant, and on one with none. -/
theorem gauge_amended_witness :
    (process_queue 5 queueQ dbOneWaiting).gauge =
      some (countWaiting queueQ dbOneWaiting) ∧
    process_queue 5 queueQ dbNoWaiting =
      { db := dbNoWaiting, users_released := 0, gauge := none } := by
  refine ⟨(gauge_amended 5 queueQ dbOneWaiting).2 (by decide), ?_⟩
  exact (gauge_amended 5 queueQ dbNoWaiting).1 (by decide)

/- ### C9 -/

/-- C9: a simulation-mode join that passes the credential and queue
validation returns a transient participant already `ready` carrying the
fabricated token, together with the store EXACTLY as it was (nothing is
persisted, so later scheduler cycles see the same waiting lists and no
quota is consumed by it), and — the fabricated token being fresh — a
status lookup of that token fails 404. -/
theorem simulation_frame (db : DB) (key : String) (qid fid : Nat)
    (vid tok : String) (now : Nat) (app : Application) (queue : Queue)
    (h1 : findApp db key = some app)
    (h2 : findQueue db qid app.id = some queue)
    (h3 : ∀ u ∈ db.queue_users, u.token ≠ tok) :
    join_queue (some key) qid vid "simulation" fid tok now db =
      .ok ({ id := fid, queue_id := queue.id, visitor_id := vid,
             status := .ready, token := tok, redirect_url := none,
             wait_time := some 0, expires_at := now + 5, created_at := now }, db) ∧
    queue_status tok db = .error 404 := by
  have hfind : findUser db tok = none := by
    refine List.find?_eq_none.mpr (fun u hu => ?_)
    simp [h3 u hu]
  constructor
  · simp [join_queue, h1, h2]
  · simp [queue_status, hfind]

/-- C9 witness: a simulation join on a concrete store holding one real
participant returns the fabricated ready participant and the unchanged
store, and the fabricated token is not found. -/
theorem simulation_frame_witness :
    join_queue (some "k") 1 "v" "simulation" 7 "fake" 0 dbReady =
      .ok ({ id := 7, queue_id := 1, visitor_id := "v",
             status := QueueUserStatus.ready, token := "fake",
             redirect_url := none, wait_time := some 0,
             expires_at := 5, created_at := 0 }, dbReady) ∧
    queue_status "fake" dbReady = .error 404 :=
  simulation_frame dbReady "k" 1 7 "v" "fake" 0 appK queueQ
    (by rfl) (by rfl) (by decide)

/- ### C10 -/

theorem pruneWindow_idem (window now : Nat) (reqs : List Nat) :
    pruneWindow window now (pruneWindow window now reqs) =
      pruneWindow window now reqs := by
  simp [pruneWindow, List.filter_filter]

/-- C10: a denied `is_allowed` call records nothing: the client's stored
window after the call is exactly the pruned old window with no new
timestamp, the remaining-request count computed after the denied call
equals the one computed before it, and that count is 0 (the ceiling is
exhausted, so only previously allowed requests occupy the window). -/
theorem denied_no_record (maxRequests window now : Nat) (reqs : List Nat)
    (h : (is_allowed maxRequests window now reqs).1 = false) :
    (is_allowed maxRequests window now reqs).2 = pruneWindow window now reqs ∧
    (get_remaining_requests maxRequests window now
        (is_allowed maxRequests window now reqs).2).1 =
      (get_remaining_requests maxRequests window now reqs).1 ∧
    (get_remaining_requests maxRequests window now reqs).1 = 0 := by
  by_cases hlt : (pruneWindow window now reqs).length < maxRequests
  · simp [is_allowed, hlt] at h
  · have h2 : (is_allowed maxRequests window now reqs).2 =
        pruneWindow window now reqs := by
      simp [is_allowed, hlt]
    refine ⟨h2, ?_, ?_⟩
    · rw [h2]
      simp [get_remaining_requests, pruneWindow_idem]
    · simp [get_remaining_requests]
      exact Nat.sub_eq_zero_of_le (Nat.le_of_not_lt hlt)

/-- C10 witness: with ceiling 1 and two live timestamps in the window,
the call at time 10 is denied, the stored window keeps exactly the two
old timestamps, and the remaining count is 0 before and after. -/
theorem denied_no_record_witness :
    (is_allowed 1 60 10 [5, 9]).1 = false ∧
    (is_allowed 1 60 10 [5, 9]).2 = pruneWindow 60 10 [5, 9] ∧
    (get_remaining_requests 1 60 10 (is_allowed 1 60 10 [5, 9]).2).1 =
      (get_remaining_requests 1 60 10 [5, 9]).1 ∧
    (get_remaining_requests 1 60 10 [5, 9]).1 = 0 :=
  ⟨rfl, denied_no_record 1 60 10 [5, 9] rfl⟩

end QueueApp
